import Mathlib

/-
Verification development for src/audit_pipeline.py (Portfolio-Crypto-Tracker).

Shallow embedding conventions:
  * Python strings are represented as `Str := List Char`; a literal such as
    "critical" is written ("critical".data).
  * Python dicts with string keys are association lists, looked up with
    `assocGet` (first matching key wins, as in an insertion-ordered dict
    whose keys are distinct).
  * The outside world (filesystem, subprocess outcomes, network responses)
    is passed in as explicit arguments; a Python method's `self` state is
    likewise passed explicitly.
  * Wall-clock durations (floats in the source) are abstracted to a `Nat`
    argument `elapsed`; all the source ever does with them is store them
    or store the constant 0.
  * A Python function that cannot raise past its boundary is embedded as a
    total Lean function.
-/

set_option maxRecDepth 4000

abbrev Str := List Char

/-- Lookup in an association list with `Str` keys (Python `d[k]` / `d.get(k)`). -/
def assocGet {α : Type} (k : Str) : List (Str × α) → Option α
  | [] => none
  | (k', v) :: rest => if k = k' then some v else assocGet k rest

/-- Boolean test that `p` is an initial segment of `s` (Python `s.startswith(p)`). -/
def isPre : Str → Str → Bool
  | [], _ => true
  | _ :: _, [] => false
  | a :: as, b :: bs => (a = b) && isPre as bs

/-- Boolean test that `p` is a final segment of `s` (Python `s.endswith(p)`). -/
def isSuf (p s : Str) : Bool := isPre p.reverse s.reverse

/-- Boolean test that `p` occurs as a contiguous substring of `s` (Python `p in s`). -/
def occurs (p : Str) : Str → Bool
  | [] => p.isEmpty
  | c :: rest => isPre p (c :: rest) || occurs p rest

/-- Python `s.lower()`, restricted to the ASCII case mapping the source relies on. -/
def lowerStr (s : Str) : Str := s.map Char.toLower

/-- Python `s.replace(p, mask)`: replace every (leftmost-first, non-overlapping)
occurrence of `p` in `s` by `mask`.  The empty-pattern case never arises in the
source (the credential is non-empty on the path that builds the URL), and is
treated as the identity here. -/
def replaceAll (p mask : Str) : Str → Str
  | [] => []
  | c :: rest =>
    if p ≠ [] ∧ isPre p (c :: rest) = true then
      mask ++ replaceAll p mask (rest.drop (p.length - 1))
    else
      c :: replaceAll p mask rest
termination_by s => s.length
decreasing_by
  · simp only [List.length_drop, List.length_cons]
    omega
  · simp only [List.length_cons]
    omega

/- DATA MODEL (src/audit_pipeline.py lines 22-78) -/

/-- The audit depth levels (class AuditLevel, lines 22-27). -/
inductive AuditLevel where
  | quick | standard | deep | forensic
deriving DecidableEq

/-- One detection object from the analyzer's JSON output.  Only the
`severity` field is inspected by the source (`issue.get("severity", ...)`,
line 163); the remaining free-form fields never influence control flow and
are omitted. `severity = none` models a detection with no severity key. -/
structure Detection where
  severity : Option Str
deriving DecidableEq

/-- dataclass AuditResult (lines 46-53).  `severity_count` is a string-keyed
dict, empty on failure paths, hence an association list here. -/
structure AuditResult where
  tool_name : Str
  severity_count : List (Str × Nat)
  findings : List Detection
  execution_time : Nat
  passed : Bool
deriving DecidableEq

/- TOOL AVAILABILITY (check_tool_installed, lines 102-115) -/

/-- Keys of TOOLS_CONFIG (lines 37-43): the fixed supported set of tools. -/
def supportedTools : List Str :=
  [("slither".data), ("mythril".data), ("echidna".data), ("certora".data), ("mythx".data)]

/-- Outcome of the `subprocess.run(..., check=True)` probe: the process ran and
exited with `returncode`, or the executable was missing (FileNotFoundError). -/
inductive ProbeOutcome where
  | exits (returncode : Int)
  | fileNotFound
deriving DecidableEq

/-- The argv that check_tool_installed passes to subprocess.run for each tool
name, `none` when no branch of the if/elif chain matches (lines 105-112).
Note the chain has branches for slither, mythril, echidna, certora only. -/
def probeArgv (tool_name : Str) : Option (List Str) :=
  if tool_name = ("slither".data) then some [("slither".data), ("--version".data)]
  else if tool_name = ("mythril".data) then some [("myth".data), ("--version".data)]
  else if tool_name = ("echidna".data) then some [("echidna".data), ("--version".data)]
  else if tool_name = ("certora".data) then some [("certoraRun".data), ("--version".data)]
  else none

/-- The `capture_output` keyword passed to subprocess.run in the probe (true). -/
def checkToolCaptures : Bool := true

/-- The `timeout` keyword passed to subprocess.run in the probe: the source
passes none at all (lines 106-112 carry no timeout argument). -/
def checkToolTimeout : Option Nat := none

/-- check_tool_installed (lines 102-115).  When a branch matches, check=True
turns a non-zero exit into CalledProcessError, which (like FileNotFoundError)
is caught and yields False; exit code 0 falls through to `return True`.
When no branch matches (e.g. "mythx"), nothing is run and True is returned. -/
def check_tool_installed (tool_name : Str) (probe : ProbeOutcome) : Bool :=
  match probeArgv tool_name with
  | none => true
  | some _ =>
    match probe with
    | .exits rc => decide (rc = 0)
    | .fileNotFound => false

/-- Number of subprocess spawns performed by one call to check_tool_installed. -/
def checkSubprocessCalls (tool_name : Str) : Nat :=
  if (probeArgv tool_name).isSome then 1 else 0

/- PATH VALIDATION (validate_contract_path, lines 118-126) -/

/-- validate_contract_path (lines 118-126).  The filesystem is modelled as the
list `fs` of existing paths (`os.path.exists`). -/
def validate_contract_path (fs : List Str) (contract_path : Str) : Bool :=
  if contract_path ∉ fs then false
  else if isSuf (".sol".data) contract_path = false then false
  else true

/- SLITHER RUNNER (class SlitherAnalyzer, lines 131-194) -/

/-- The `"results"` object of the parsed slither JSON
(`findings.get("results", {})`, line 162). -/
structure SlitherResults where
  detections : Option (List Detection)
deriving DecidableEq

/-- The parsed slither JSON document (the value of `json.loads(result.stdout)`). -/
structure SlitherJson where
  results : Option SlitherResults
deriving DecidableEq

/-- `findings.get("results", {}).get("detections", [])` (line 162). -/
def getDetections (j : SlitherJson) : List Detection :=
  ((j.results.getD ⟨none⟩).detections).getD []

/-- Outcome of `subprocess.run(["slither", path, "--json"], ..., timeout=300)`:
either the process completed with a return code and an stdout that parses to
`some` JSON document (or `none` when `json.loads` would raise), or an
exception was raised (timeout, OSError, ...), carrying its message. -/
inductive RunOutcome where
  | completed (returncode : Int) (stdoutJson : Option SlitherJson)
  | raised (msg : Str)
deriving DecidableEq

/-- The severity dict initialised at lines 154-160. -/
def initCounts : List (Str × Nat) :=
  [(("critical".data), 0), (("high".data), 0), (("medium".data), 0),
   (("low".data), 0), (("informational".data), 0)]

/-- `issue.get("severity", "informational").lower()` (line 163). -/
def normSev (d : Detection) : Str := lowerStr (d.severity.getD ("informational".data))

/-- `severity_count[severity] += 1`: increment the first entry with key `k`. -/
def bump (k : Str) : List (Str × Nat) → List (Str × Nat)
  | [] => []
  | (k', v) :: rest => if k' = k then (k', v + 1) :: rest else (k', v) :: bump k rest

/-- Body of the for-loop at lines 162-165: count the severity only when it is a
key of the dict (`if severity in severity_count`). -/
def countStep (acc : List (Str × Nat)) (d : Detection) : List (Str × Nat) :=
  let sev := normSev d
  if (assocGet sev acc).isSome then bump sev acc else acc

/-- The severity dict produced by the loop at lines 162-165. -/
def countSeverities (ds : List Detection) : List (Str × Nat) :=
  ds.foldl countStep initCounts

/-- Total of the counters of a severity dict. -/
def sumVals : List (Str × Nat) → Nat
  | [] => 0
  | (_, v) :: rest => v + sumVals rest

/-- The failed-shape AuditResult built at lines 179-185 and 188-194. -/
def failedAuditResult : AuditResult :=
  ⟨("Slither".data), [], [], 0, false⟩

/-- SlitherAnalyzer.run (lines 134-194).  `_contract_path` is the argument the
source forwards to the subprocess; it does not influence the shape of the
result.  `elapsed` abstracts `(datetime.now() - start_time).total_seconds()`.
Totality of this function embeds the fact that the runner never raises past
its boundary: every outcome is mapped to an AuditResult. -/
def SlitherAnalyzer.run (_contract_path : Str) (out : RunOutcome) (elapsed : Nat) :
    AuditResult :=
  match out with
  | .raised _ => failedAuditResult
  | .completed rc stdoutJson =>
    if rc = 0 then
      match stdoutJson with
      | none => failedAuditResult
      | some j =>
        let ds := getDetections j
        let sc := countSeverities ds
        let passed := ((assocGet ("critical".data) sc).getD 0 == 0)
                        && ((assocGet ("high".data) sc).getD 0 == 0)
        ⟨("Slither".data), sc, ds, elapsed, passed⟩
    else failedAuditResult

/-- The outcomes the spec calls failure paths: non-zero exit, unparseable
stdout (with exit 0), or a raised exception. -/
def runFailed : RunOutcome → Bool
  | .raised _ => true
  | .completed rc stdoutJson => (rc != 0) || stdoutJson.isNone

/- ON-CHAIN METADATA FETCHER (AuditPipeline.fetch_etherscan_data, lines 206-309) -/

/-- One transaction object from the Etherscan txlist response.  The source
reads `tx.get("to")`, `tx.get("from", "Unknown")` and
`int(tx.get("timeStamp", 0))`; the integer parse of the timestamp string is
abstracted to a `Nat` field. -/
structure Tx where
  toAddr : Option Str
  fromAddr : Option Str
  timeStamp : Option Nat
deriving DecidableEq

/-- The parsed txlist response body (`tx_response.json()`). -/
structure TxData where
  status : Option Str
  result : Option (List Tx)
deriving DecidableEq

/-- One entry of the getsourcecode response's result list. -/
structure SourceEntry where
  SourceCode : Option Str
deriving DecidableEq

/-- The parsed getsourcecode response body (`source_response.json()`).  The
source also tolerates a non-list `result`; the Etherscan API returns a list,
which is the shape modelled here. -/
structure SourceData where
  status : Option Str
  result : Option (List SourceEntry)
deriving DecidableEq

/-- Outcome of the try-block of network requests: both `requests.get` calls
succeeded and parsed (`ok`), a `requests.RequestException` was raised
(`reqExn`), or some other exception was raised (`otherExn`).  `duringSecond`
records whether the first GET had already completed when the exception
arose, which fixes how many network calls were attempted. -/
inductive NetOutcome where
  | ok (txd : TxData) (srcd : SourceData)
  | reqExn (duringSecond : Bool) (msg : Str)
  | otherExn (duringSecond : Bool) (msg : Str)
deriving DecidableEq

/-- Module constant ETHERSCAN_API (line 32). -/
def ETHERSCAN_API : Str := "https://api.etherscan.io/api".data

/-- The txlist request URL built at line 254. -/
def txUrl (addr key : Str) : Str :=
  ETHERSCAN_API ++ ("?module=account&action=txlist&address=".data) ++ addr
    ++ ("&startblock=0&endblock=99999999&sort=asc&apikey=".data) ++ key

/-- The mask substituted for the credential at line 295. -/
def maskStr : Str := "***".data

/-- The zero address returned on the no-credential path (line 236). -/
def zeroAddress : Str := "0x0000000000000000000000000000000000000000".data

/-- Note text of the no-address placeholder (line 220). -/
def noAddressNote : Str :=
  "No contract address provided. Pass --address parameter to fetch real data.".data

/-- Note text of the no-credential placeholder (line 232). -/
def noKeyNote : Str :=
  "Simulated data - set ETHERSCAN_API_KEY for real on-chain data".data

/-- datetime.fromtimestamp(ts).isoformat() (line 279), abstracted to an
injective rendering of the numeric timestamp: the calendar arithmetic of the
datetime library is outside this embedding; all the claims need is which
timestamp the conversion is applied to. -/
def isoOfTimestamp (ts : Nat) : Str := ("iso8601:".data) ++ (toString ts).data

/-- The for-loop at lines 275-280: first transaction whose `to` field is
present and equal to the empty string. -/
def findCreation : List Tx → Option Tx
  | [] => none
  | tx :: rest => if tx.toAddr = some [] then some tx else findCreation rest

/-- Lines 266-280: (transaction_count, deployer_address, creation_date)
derived from the txlist response.  The guard mirrors
`tx_data.get("status") == "1" and tx_data.get("result")` (Python truthiness
of a list: non-empty). -/
def txSummary (txd : TxData) : Nat × Str × Str :=
  match txd.status, txd.result with
  | some st, some txs =>
    if st = ("1".data) ∧ txs ≠ [] then
      match findCreation txs with
      | some t =>
        (txs.length, t.fromAddr.getD ("Unknown".data),
         isoOfTimestamp (t.timeStamp.getD 0))
      | none => (txs.length, ("Unknown".data), ("Unknown".data))
    else (0, ("Unknown".data), ("Unknown".data))
  | _, _ => (0, ("Unknown".data), ("Unknown".data))

/-- Lines 283-287: verification status from the getsourcecode response.
`result.get("SourceCode")` truthiness: present and non-empty. -/
def verificationStatus (srcd : SourceData) : Str :=
  match srcd.status, srcd.result with
  | some st, some entries =>
    if st = ("1".data) ∧ entries ≠ [] then
      match entries with
      | e :: _ =>
        match e.SourceCode with
        | some sc => if sc ≠ [] then ("verified".data) else ("not_verified".data)
        | none => ("not_verified".data)
      | [] => ("not_verified".data)
    else ("not_verified".data)
  | _, _ => ("not_verified".data)

/-- A value of the returned dictionary: a string or a number. -/
inductive EVal where
  | s (v : Str)
  | n (v : Nat)
deriving DecidableEq

/-- AuditPipeline.fetch_etherscan_data (lines 206-309).  `contract_address`
is the method argument (`none` when absent; Python also treats the empty
string as absent via `if not contract_address`).  `api_key` is the value of
`os.getenv("ETHERSCAN_API_KEY")` (`if not api_key` likewise treats the empty
string as unset).  `requestsAvailable` is whether `import requests`
succeeds; `net` is the outcome of the network try-block. -/
def AuditPipeline.fetch_etherscan_data (contract_address : Option Str)
    (api_key : Option Str) (requestsAvailable : Bool) (net : NetOutcome) :
    List (Str × EVal) :=
  if contract_address = none ∨ contract_address = some [] then
    [(("note".data), .s noAddressNote),
     (("verification_status".data), .s ("unknown".data)),
     (("transaction_count".data), .n 0)]
  else
    let addr := contract_address.getD []
    if api_key = none ∨ api_key = some [] then
      [(("note".data), .s noKeyNote),
       (("contract_address".data), .s addr),
       (("verification_status".data), .s ("unknown".data)),
       (("transaction_count".data), .n 0),
       (("deployer_address".data), .s zeroAddress),
       (("creation_date".data), .s ("Unknown".data))]
    else
      let key := api_key.getD []
      if requestsAvailable then
        match net with
        | .ok txd srcd =>
          let summary := txSummary txd
          [(("contract_address".data), .s addr),
           (("verification_status".data), .s (verificationStatus srcd)),
           (("transaction_count".data), .n summary.1),
           (("deployer_address".data), .s summary.2.1),
           (("creation_date".data), .s summary.2.2),
           (("api_endpoint".data), .s (replaceAll key maskStr (txUrl addr key)))]
        | .reqExn _ msg =>
          [(("error".data), .s (("Failed to fetch data: ".data) ++ msg)),
           (("contract_address".data), .s addr)]
        | .otherExn _ msg =>
          [(("error".data), .s (("Unexpected error: ".data) ++ msg)),
           (("contract_address".data), .s addr)]
      else
        [(("error".data), .s ("requests library not available".data)),
         (("note".data), .s ("Install requests: pip install requests".data))]

/-- Number of `requests.get` network calls one invocation of
fetch_etherscan_data performs, branch by branch. -/
def fetchNetworkCalls (contract_address : Option Str) (api_key : Option Str)
    (requestsAvailable : Bool) (net : NetOutcome) : Nat :=
  if contract_address = none ∨ contract_address = some [] then 0
  else if api_key = none ∨ api_key = some [] then 0
  else if requestsAvailable then
    match net with
    | .ok _ _ => 2
    | .reqExn duringSecond _ => if duringSecond then 2 else 1
    | .otherExn duringSecond _ => if duringSecond then 2 else 1
  else 0

/-- Whether some string value of the returned dictionary contains `key`
verbatim as a substring (the credential-leak predicate on the structure). -/
def dictLeaks (key : Str) (d : List (Str × EVal)) : Bool :=
  d.any fun kv =>
    match kv.2 with
    | .s v => occurs key v
    | .n _ => false

/-- The strings, other than the masked request URL, that the
with-address-and-credential branches of fetch_etherscan_data carry into the
returned dictionary: the address, the fixed texts of the requests-missing
branch, and, per network outcome, either the response-derived strings or the
composed error message. -/
def leakSources (addr : Str) (net : NetOutcome) : List Str :=
  [addr, ("requests library not available".data),
   ("Install requests: pip install requests".data)] ++
  match net with
  | .ok txd srcd =>
    [(txSummary txd).2.1, (txSummary txd).2.2, verificationStatus srcd]
  | .reqExn _ msg => [("Failed to fetch data: ".data) ++ msg]
  | .otherExn _ msg => [("Unexpected error: ".data) ++ msg]

/- ORCHESTRATOR (AuditPipeline.run_audit, lines 311-346, and main, lines 349-399) -/

/-- The dictionary run_audit returns: either the error report of line 317 or
the full report of lines 332-346 (whose `timestamp` field, a wall-clock
reading, is outside the embedding). -/
inductive Report where
  | errorReport (msg : Str)
  | ok (contract : Str) (audit_level : AuditLevel) (results : List AuditResult)
       (etherscan : List (Str × EVal))
deriving DecidableEq

/-- Externally visible side effects of one run_audit call. -/
structure Effects where
  fetcherInvoked : Bool
  networkCalls : Nat
  subprocessCalls : Nat
deriving DecidableEq

/-- AuditPipeline.run_audit (lines 311-346).  `fs` models the filesystem,
`metaAddr` is `self.metadata.get("contract_address")`, `probe` the outcome of
the slither availability check, `slitherOut`/`elapsed` the environment of the
analyzer run.  The Effects component records which collaborators were
invoked: the line-325 availability probe spawns one subprocess, and the
analyzer run (when slither is installed) spawns one more. -/
def AuditPipeline.run_audit (fs : List Str) (contract_path : Str)
    (audit_level : AuditLevel) (metaAddr : Option Str) (api_key : Option Str)
    (requestsAvailable : Bool) (net : NetOutcome) (probe : ProbeOutcome)
    (slitherOut : RunOutcome) (elapsed : Nat) : Report × Effects :=
  if validate_contract_path fs contract_path = false then
    (.errorReport ("Invalid contract path".data), ⟨false, 0, 0⟩)
  else
    let ether := AuditPipeline.fetch_etherscan_data metaAddr api_key requestsAvailable net
    let netCalls := fetchNetworkCalls metaAddr api_key requestsAvailable net
    let installed := check_tool_installed ("slither".data) probe
    let results :=
      if audit_level = .quick ∨ audit_level = .standard ∨ audit_level = .deep
          ∨ audit_level = .forensic then
        if installed then [SlitherAnalyzer.run contract_path slitherOut elapsed] else []
      else []
    (.ok contract_path audit_level results ether,
     ⟨true, netCalls,
      checkSubprocessCalls ("slither".data) + (if installed then 1 else 0)⟩)

/-- The `pipeline.results` list recorded by a run (empty when run_audit
aborted at validation, since nothing is appended before that point). -/
def recordedResults : Report → List AuditResult
  | .errorReport _ => []
  | .ok _ _ results _ => results

/-- Lines 397-399 of main: `sys.exit(0 if all(r.passed for r in results) else 1)`. -/
def mainExitCode (results : List AuditResult) : Nat :=
  if results.all (fun r => r.passed) then 0 else 1

/- HELPER LEMMAS: severity counting -/

/-- Looking up after an increment: only the incremented key changes, and only
when it was present. -/
lemma assocGet_bump (k k' : Str) (acc : List (Str × Nat)) :
    assocGet k' (bump k acc) =
      if k' = k then (assocGet k acc).map (· + 1) else assocGet k' acc := by
  induction acc with
  | nil => simp [bump, assocGet]
  | cons kv rest ih =>
    obtain ⟨a, v⟩ := kv
    by_cases hak : a = k
    · subst hak
      by_cases h1 : k' = a
      · subst h1; simp [bump, assocGet]
      · simp [bump, assocGet, h1]
    · have hbump : bump k ((a, v) :: rest) = (a, v) :: bump k rest := by
        simp [bump, hak]
      rw [hbump]
      by_cases h1 : k' = a
      · have h2 : ¬ k' = k := by rw [h1]; exact fun hh => hak hh
        have hka : ¬ k = a := fun hh => hak hh.symm
        simp [assocGet, h1, h2, hak, hka]
      · have hka : ¬ k = a := fun hh => hak hh.symm
        simp [assocGet, h1, hka, ih]

/-- Folding the counting step: a key present in the accumulator ends up with
its initial value plus the number of detections whose normalized severity is
that key. -/
lemma assocGet_foldl_countStep (ds : List Detection) :
    ∀ (acc : List (Str × Nat)) (k : Str) (n : Nat), assocGet k acc = some n →
      assocGet k (ds.foldl countStep acc) =
        some (n + ds.countP (fun d => normSev d == k)) := by
  induction ds with
  | nil => intro acc k n h; simpa using h
  | cons d ds ih =>
    intro acc k n h
    rw [List.foldl_cons]
    by_cases hd : normSev d = k
    · have hstep : assocGet k (countStep acc d) = some (n + 1) := by
        unfold countStep
        dsimp only
        rw [hd, h]
        simp [assocGet_bump, h]
      rw [ih (countStep acc d) k (n + 1) hstep, List.countP_cons]
      simp only [hd, beq_self_eq_true, if_pos]
      congr 1
      omega
    · have hstep : assocGet k (countStep acc d) = some n := by
        unfold countStep
        dsimp only
        split
        · rw [assocGet_bump, if_neg (fun hh : k = normSev d => hd hh.symm)]
          exact h
        · exact h
      rw [ih (countStep acc d) k n hstep, List.countP_cons]
      have hne : (normSev d == k) = false := by simpa using hd
      simp [hne]

/-- The severity dict of a run: each of its keys counts exactly the
detections whose normalized severity equals that key. -/
lemma assocGet_countSeverities (k : Str) (h : assocGet k initCounts = some 0)
    (ds : List Detection) :
    assocGet k (countSeverities ds) =
      some (0 + ds.countP (fun d => normSev d == k)) :=
  assocGet_foldl_countStep ds initCounts k 0 h

/-- An increment raises the total of the counters by at most one. -/
lemma sumVals_bump_le (k : Str) (acc : List (Str × Nat)) :
    sumVals (bump k acc) ≤ sumVals acc + 1 := by
  induction acc with
  | nil => simp [bump, sumVals]
  | cons kv rest ih =>
    obtain ⟨a, v⟩ := kv
    by_cases hak : a = k
    · simp only [bump, if_pos hak, sumVals]
      omega
    · simp only [bump, if_neg hak, sumVals]
      omega

/-- One counting step raises the total by at most one. -/
lemma sumVals_countStep_le (acc : List (Str × Nat)) (d : Detection) :
    sumVals (countStep acc d) ≤ sumVals acc + 1 := by
  unfold countStep
  dsimp only
  split
  · exact sumVals_bump_le _ _
  · omega

/-- Folding the counting step over a detection list raises the total by at
most the number of detections. -/
lemma sumVals_foldl_le (ds : List Detection) :
    ∀ acc, sumVals (ds.foldl countStep acc) ≤ sumVals acc + ds.length := by
  induction ds with
  | nil => intro acc; simp
  | cons d ds ih =>
    intro acc
    rw [List.foldl_cons]
    have h1 := ih (countStep acc d)
    have h2 := sumVals_countStep_le acc d
    simp only [List.length_cons]
    omega

/- HELPER LEMMAS: substring occurrence and masking -/

/-- A non-empty pattern does not occur in the empty string. -/
lemma occurs_nil_of_ne (p : Str) (hp : p ≠ []) : occurs p [] = false := by
  cases p with
  | nil => exact absurd rfl hp
  | cons y ys => simp [occurs, List.isEmpty]

/-- A pattern that begins the replaced string, avoids the mask's characters
and is non-empty must already begin the original string. -/
lemma isPre_of_isPre_replaceAll (p mask : Str) (hm : mask ≠ []) :
    ∀ (s q : Str), q ≠ [] → (∀ c ∈ mask, c ∉ q) →
      isPre q (replaceAll p mask s) = true → isPre q s = true := by
  intro s
  induction s with
  | nil =>
    intro q hq _ hpre
    rw [replaceAll] at hpre
    cases q with
    | nil => exact absurd rfl hq
    | cons x xs => simp [isPre] at hpre
  | cons c rest ih =>
    intro q hq hdisj hpre
    rw [replaceAll] at hpre
    split at hpre
    · cases q with
      | nil => exact absurd rfl hq
      | cons x xs =>
        cases mask with
        | nil => exact absurd rfl hm
        | cons m ms =>
          rw [List.cons_append] at hpre
          simp only [isPre, Bool.and_eq_true, decide_eq_true_eq] at hpre
          have hmem : m ∈ m :: ms := List.mem_cons_self m ms
          have hnot : m ∉ x :: xs := hdisj m hmem
          exact absurd (by rw [hpre.1]; exact List.mem_cons_self m xs) hnot
    · cases q with
      | nil => exact absurd rfl hq
      | cons x xs =>
        simp only [isPre, Bool.and_eq_true, decide_eq_true_eq] at hpre ⊢
        refine ⟨hpre.1, ?_⟩
        cases xs with
        | nil => cases rest <;> simp [isPre]
        | cons y ys =>
          have hdisj' : ∀ c ∈ mask, c ∉ y :: ys := by
            intro ch hch hmem
            exact hdisj ch hch (List.mem_cons_of_mem x hmem)
          exact ih (y :: ys) (by simp) hdisj' hpre.2

/-- An occurrence in an appended string whose left part's characters avoid
the pattern must lie in the right part. -/
lemma occurs_of_occurs_append (p b : Str) (hp : p ≠ []) :
    ∀ a : Str, (∀ c ∈ a, c ∉ p) → occurs p (a ++ b) = true → occurs p b = true := by
  intro a
  induction a with
  | nil => intro _ h; simpa using h
  | cons x a' ih =>
    intro hdisj hocc
    rw [List.cons_append, occurs, Bool.or_eq_true] at hocc
    rcases hocc with h | h
    · cases p with
      | nil => exact absurd rfl hp
      | cons y ys =>
        simp only [isPre, Bool.and_eq_true, decide_eq_true_eq] at h
        have hnot : x ∉ y :: ys := hdisj x (List.mem_cons_self x a')
        exact absurd (by rw [← h.1]; exact List.mem_cons_self y ys) hnot
    · exact ih (fun c hc => hdisj c (List.mem_cons_of_mem x hc)) h

/-- Replacing every occurrence of a non-empty pattern by a non-empty mask
whose characters do not appear in the pattern leaves no occurrence of the
pattern: the core correctness fact behind the credential masking. -/
lemma occurs_replaceAll (p mask : Str) (hp : p ≠ []) (hm : mask ≠ [])
    (hdisj : ∀ c ∈ mask, c ∉ p) :
    ∀ (n : Nat) (s : Str), s.length ≤ n → occurs p (replaceAll p mask s) = false := by
  intro n
  induction n with
  | zero =>
    intro s hs
    have hnil : s = [] := List.length_eq_zero.mp (Nat.le_zero.mp hs)
    subst hnil
    rw [replaceAll]
    exact occurs_nil_of_ne p hp
  | succ n ih =>
    intro s hs
    cases s with
    | nil => rw [replaceAll]; exact occurs_nil_of_ne p hp
    | cons c rest =>
      rw [replaceAll]
      split
      · rename_i hcond
        by_contra hcontra
        have htrue : occurs p (mask ++ replaceAll p mask (rest.drop (p.length - 1)))
            = true := by
          revert hcontra
          cases occurs p (mask ++ replaceAll p mask (rest.drop (p.length - 1))) <;> simp
        have h2 := occurs_of_occurs_append p _ hp mask hdisj htrue
        have hlen : (rest.drop (p.length - 1)).length ≤ n := by
          simp only [List.length_drop]
          simp only [List.length_cons] at hs
          omega
        rw [ih (rest.drop (p.length - 1)) hlen] at h2
        exact Bool.false_ne_true h2
      · rename_i hcond
        rw [occurs, Bool.or_eq_false_iff]
        constructor
        · by_contra hcontra
          have htrue : isPre p (c :: replaceAll p mask rest) = true := by
            revert hcontra
            cases isPre p (c :: replaceAll p mask rest) <;> simp
          cases p with
          | nil => exact absurd rfl hp
          | cons y ys =>
            simp only [isPre, Bool.and_eq_true, decide_eq_true_eq] at htrue
            have hyspre : isPre ys rest = true := by
              cases ys with
              | nil => cases rest <;> simp [isPre]
              | cons z zs =>
                have hdisj' : ∀ ch ∈ mask, ch ∉ z :: zs := by
                  intro ch hch hmem
                  exact hdisj ch hch (List.mem_cons_of_mem y hmem)
                exact isPre_of_isPre_replaceAll (y :: z :: zs) mask hm rest (z :: zs)
                  (by simp) hdisj' htrue.2
            apply hcond
            refine ⟨hp, ?_⟩
            simp only [isPre, Bool.and_eq_true, decide_eq_true_eq]
            exact ⟨htrue.1, hyspre⟩
        · have hlen : rest.length ≤ n := by
            simp only [List.length_cons] at hs
            omega
          exact ih rest hlen

/- CLAIM THEOREMS: the static-analysis runner -/

/-- C1: For every AuditResult produced by SlitherAnalyzer.run — from the
success path and from every failure path — the pass verdict is true exactly
when its severity dict maps both "critical" and "high" to the count 0 (on the
failure paths the dict is empty, so neither count is present and the verdict
is false). -/
theorem c1_pass_iff_no_critical_high (contract_path : Str) (out : RunOutcome)
    (elapsed : Nat) :
    (SlitherAnalyzer.run contract_path out elapsed).passed = true ↔
      (assocGet ("critical".data)
          (SlitherAnalyzer.run contract_path out elapsed).severity_count = some 0 ∧
       assocGet ("high".data)
          (SlitherAnalyzer.run contract_path out elapsed).severity_count = some 0) := by
  cases out with
  | raised msg =>
    simp [SlitherAnalyzer.run, failedAuditResult, assocGet]
  | completed rc stdoutJson =>
    by_cases hrc : rc = 0
    · subst hrc
      cases stdoutJson with
      | none => simp [SlitherAnalyzer.run, failedAuditResult, assocGet]
      | some j =>
        have hrun : SlitherAnalyzer.run contract_path (.completed 0 (some j)) elapsed =
            ⟨("Slither".data), countSeverities (getDetections j), getDetections j, elapsed,
             ((assocGet ("critical".data) (countSeverities (getDetections j))).getD 0 == 0)
               && ((assocGet ("high".data) (countSeverities (getDetections j))).getD 0 == 0)⟩ := rfl
        rw [hrun]
        have hc := assocGet_countSeverities ("critical".data) rfl (getDetections j)
        have hh := assocGet_countSeverities ("high".data) rfl (getDetections j)
        dsimp only
        rw [hc, hh]
        simp [Bool.and_eq_true, beq_iff_eq]
    · have hrun : SlitherAnalyzer.run contract_path (.completed rc stdoutJson) elapsed
          = failedAuditResult := by
        simp only [SlitherAnalyzer.run]
        rw [if_neg hrc]
      rw [hrun]
      simp [failedAuditResult, assocGet]

/-- C3: On every failure path of SlitherAnalyzer.run (non-zero exit,
unparseable stdout, or a raised exception such as a timeout) the returned
AuditResult has empty severity counts, empty findings, zero execution time,
and pass = false.  That the runner never raises past its boundary is embedded
by SlitherAnalyzer.run being a total function on all outcomes. -/
theorem c3_failure_result_shape (contract_path : Str) (out : RunOutcome)
    (elapsed : Nat) (h : runFailed out = true) :
    SlitherAnalyzer.run contract_path out elapsed =
      { tool_name := ("Slither".data), severity_count := [], findings := [],
        execution_time := 0, passed := false } := by
  cases out with
  | raised msg => rfl
  | completed rc stdoutJson =>
    rw [runFailed] at h
    by_cases hrc : rc = 0
    · subst hrc
      cases stdoutJson with
      | none => rfl
      | some j => simp at h
    · simp only [SlitherAnalyzer.run]
      rw [if_neg hrc]
      rfl

/-- Witness for C3 at a concrete failure input (a raised timeout). -/
theorem c3_failure_result_shape_witness :
    SlitherAnalyzer.run ("Token.sol".data) (.raised ("timed out".data)) 7 =
      { tool_name := ("Slither".data), severity_count := [], findings := [],
        execution_time := 0, passed := false } :=
  c3_failure_result_shape ("Token.sol".data) (.raised ("timed out".data)) 7 (by rfl)

/-- C7: On the success path every reported detection is retained in the
findings list, while only recognized (lower-cased) severities are counted,
so the total of the severity counts is at most the number of findings. -/
theorem c7_severity_total_le_findings (contract_path : Str) (j : SlitherJson)
    (elapsed : Nat) :
    (SlitherAnalyzer.run contract_path (.completed 0 (some j)) elapsed).findings
        = getDetections j ∧
    sumVals (SlitherAnalyzer.run contract_path
        (.completed 0 (some j)) elapsed).severity_count ≤
      (SlitherAnalyzer.run contract_path
        (.completed 0 (some j)) elapsed).findings.length := by
  constructor
  · rfl
  · show sumVals (countSeverities (getDetections j)) ≤ (getDetections j).length
    have h := sumVals_foldl_le (getDetections j) initCounts
    have h0 : sumVals initCounts = 0 := rfl
    rw [countSeverities]
    omega

/-- C10: A detection with no severity field at all is counted in the
"informational" bucket (the runner defaults a missing severity to
"informational" before normalization): inserting such a detection anywhere
in the detection list raises the informational count by exactly one, so such
findings are never dropped from severity_count. -/
theorem c10_missing_severity_counted (pre post : List Detection) (d : Detection)
    (h : d.severity = none) :
    (assocGet ("informational".data) (countSeverities (pre ++ d :: post))).getD 0 =
      (assocGet ("informational".data) (countSeverities (pre ++ post))).getD 0 + 1 := by
  have h1 := assocGet_countSeverities ("informational".data) rfl (pre ++ d :: post)
  have h2 := assocGet_countSeverities ("informational".data) rfl (pre ++ post)
  rw [h1, h2]
  simp only [Option.getD_some]
  rw [List.countP_append, List.countP_append, List.countP_cons]
  have hd : (normSev d == ("informational".data)) = true := by
    simp only [normSev, h, Option.getD_none]
    decide
  simp only [hd, if_pos, eq_self_iff_true, if_true]
  omega

/-- Witness for C10 at a concrete severity-less detection. -/
theorem c10_missing_severity_counted_witness :
    (assocGet ("informational".data)
        (countSeverities ([⟨some ("High".data)⟩] ++ ⟨none⟩ :: []))).getD 0 =
      (assocGet ("informational".data)
        (countSeverities ([⟨some ("High".data)⟩] ++ []))).getD 0 + 1 :=
  c10_missing_severity_counted [⟨some ("High".data)⟩] [] ⟨none⟩ rfl

/- CLAIM THEOREMS: tool availability and orchestrator -/

/-- C8 counterexample: "mythx" belongs to the supported set (TOOLS_CONFIG),
yet the availability check performs no subprocess invocation for it and
returns true even though no process ever exited successfully (here the
executable is missing); moreover the probe passes no process-level timeout
to subprocess.run at all. -/
theorem c8_counterexample :
    ("mythx".data) ∈ supportedTools ∧
    check_tool_installed ("mythx".data) ProbeOutcome.fileNotFound = true ∧
    checkSubprocessCalls ("mythx".data) = 0 ∧
    checkToolTimeout = none := by decide

/-- C8 amended: for the four tool names with a probe branch (slither,
mythril, echidna, certora) the check invokes the tool's version-query
subcommand with output captured but no timeout, and returns true exactly
when the process exits with code 0 — false, without propagating, on
non-zero exit or missing executable; for the remaining supported name
("mythx") it invokes nothing and returns true unconditionally. -/
theorem c8_amended_availability_check (tool : Str) (probe : ProbeOutcome)
    (h : tool ∈ [("slither".data), ("mythril".data), ("echidna".data),
                 ("certora".data)]) :
    (check_tool_installed tool probe = true ↔ probe = ProbeOutcome.exits 0) ∧
    checkSubprocessCalls tool = 1 ∧
    (probeArgv tool).isSome = true ∧
    checkToolCaptures = true ∧
    checkToolTimeout = none ∧
    check_tool_installed ("mythx".data) probe = true ∧
    checkSubprocessCalls ("mythx".data) = 0 := by
  have hmy : check_tool_installed ("mythx".data) probe = true := by
    cases probe <;> rfl
  simp only [List.mem_cons, List.not_mem_nil, or_false] at h
  have hiff : ∀ rc : Int,
      (decide (rc = 0) = true ↔ ProbeOutcome.exits rc = ProbeOutcome.exits 0) := by
    intro rc
    simp
  rcases h with rfl | rfl | rfl | rfl <;>
    (cases probe with
     | exits rc => exact ⟨hiff rc, rfl, rfl, rfl, rfl, hmy, rfl⟩
     | fileNotFound => exact ⟨by simp [check_tool_installed, probeArgv], rfl, rfl, rfl, rfl, hmy, rfl⟩)

/-- Witness for the amended C8 at the concrete tool "slither" with a
successfully exiting probe process. -/
theorem c8_amended_availability_check_witness :
    (check_tool_installed ("slither".data) (ProbeOutcome.exits 0) = true ↔
      ProbeOutcome.exits 0 = ProbeOutcome.exits 0) ∧
    checkSubprocessCalls ("slither".data) = 1 ∧
    (probeArgv ("slither".data)).isSome = true ∧
    checkToolCaptures = true ∧
    checkToolTimeout = none ∧
    check_tool_installed ("mythx".data) (ProbeOutcome.exits 0) = true ∧
    checkSubprocessCalls ("mythx".data) = 0 :=
  c8_amended_availability_check ("slither".data) (ProbeOutcome.exits 0) (by decide)

/-- C4: For every contract path failing validation (not present in the
filesystem, or not ending in ".sol"), run_audit returns the error report and
performs no side effect at all: the metadata fetcher is not invoked, no
network call and no subprocess happens. -/
theorem c4_invalid_path_short_circuits (fs : List Str) (contract_path : Str)
    (audit_level : AuditLevel) (metaAddr api_key : Option Str)
    (requestsAvailable : Bool) (net : NetOutcome) (probe : ProbeOutcome)
    (slitherOut : RunOutcome) (elapsed : Nat)
    (h : contract_path ∉ fs ∨ isSuf (".sol".data) contract_path = false) :
    AuditPipeline.run_audit fs contract_path audit_level metaAddr api_key
        requestsAvailable net probe slitherOut elapsed =
      (Report.errorReport ("Invalid contract path".data),
       { fetcherInvoked := false, networkCalls := 0, subprocessCalls := 0 }) := by
  have hv : validate_contract_path fs contract_path = false := by
    unfold validate_contract_path
    rcases h with h | h
    · rw [if_pos h]
    · by_cases hmem : contract_path ∉ fs
      · rw [if_pos hmem]
      · rw [if_neg hmem, if_pos h]
  unfold AuditPipeline.run_audit
  rw [if_pos hv]

/-- Witness for C4 at a concrete invalid path (empty filesystem). -/
theorem c4_invalid_path_short_circuits_witness :
    AuditPipeline.run_audit [] ("Token.sol".data) AuditLevel.quick none none true
        (.ok ⟨none, none⟩ ⟨none, none⟩) ProbeOutcome.fileNotFound
        (.raised []) 0 =
      (Report.errorReport ("Invalid contract path".data),
       { fetcherInvoked := false, networkCalls := 0, subprocessCalls := 0 }) :=
  c4_invalid_path_short_circuits [] ("Token.sol".data) AuditLevel.quick none none
    true (.ok ⟨none, none⟩ ⟨none, none⟩) ProbeOutcome.fileNotFound (.raised []) 0
    (Or.inl (List.not_mem_nil _))

/-- C5: The process exit code computed by main from a completed run is 0
exactly when every recorded AuditResult passed; in particular an empty
results list (zero tools ran) yields exit code 0 (a vacuous pass). -/
theorem c5_exit_code_iff_all_passed (fs : List Str) (contract_path : Str)
    (audit_level : AuditLevel) (metaAddr api_key : Option Str)
    (requestsAvailable : Bool) (net : NetOutcome) (probe : ProbeOutcome)
    (slitherOut : RunOutcome) (elapsed : Nat) :
    (mainExitCode (recordedResults (AuditPipeline.run_audit fs contract_path
          audit_level metaAddr api_key requestsAvailable net probe slitherOut
          elapsed).1) = 0 ↔
      (recordedResults (AuditPipeline.run_audit fs contract_path audit_level
          metaAddr api_key requestsAvailable net probe slitherOut
          elapsed).1).all (fun r => r.passed) = true) ∧
    (recordedResults (AuditPipeline.run_audit fs contract_path audit_level
          metaAddr api_key requestsAvailable net probe slitherOut
          elapsed).1 = [] →
      mainExitCode (recordedResults (AuditPipeline.run_audit fs contract_path
          audit_level metaAddr api_key requestsAvailable net probe slitherOut
          elapsed).1) = 0) := by
  generalize recordedResults (AuditPipeline.run_audit fs contract_path
    audit_level metaAddr api_key requestsAvailable net probe slitherOut
    elapsed).1 = rs
  constructor
  · unfold mainExitCode
    by_cases hall : rs.all (fun r => r.passed) = true
    · simp [hall]
    · simp [hall]
  · intro hnil
    rw [hnil]
    rfl

/-- Witness for C5's vacuous-pass clause: an invalid path records no results
and the exit code is 0. -/
theorem c5_exit_code_iff_all_passed_witness :
    mainExitCode (recordedResults (AuditPipeline.run_audit [] ("x.sol".data)
        AuditLevel.quick none none true (.ok ⟨none, none⟩ ⟨none, none⟩)
        ProbeOutcome.fileNotFound (.raised []) 0).1) = 0 :=
  (c5_exit_code_iff_all_passed [] ("x.sol".data) AuditLevel.quick none none true
      (.ok ⟨none, none⟩ ⟨none, none⟩) ProbeOutcome.fileNotFound
      (.raised []) 0).2 (by rfl)

/- CLAIM THEOREMS: the on-chain metadata fetcher -/

/-- C6: With no contract address (absent, or empty hence falsy), or with an
address but no configured credential (unset or empty environment variable),
the fetcher performs zero network calls and returns a note-marked
placeholder with transaction_count = 0 and verification_status = "unknown";
in the address-without-credential case the placeholder additionally carries
the zero deployer address and creation_date = "Unknown". -/
theorem c6_placeholder_paths (contract_address api_key : Option Str)
    (requestsAvailable : Bool) (net : NetOutcome) :
    ((contract_address = none ∨ contract_address = some []) →
      fetchNetworkCalls contract_address api_key requestsAvailable net = 0 ∧
      (assocGet ("note".data) (AuditPipeline.fetch_etherscan_data contract_address
          api_key requestsAvailable net)).isSome = true ∧
      assocGet ("transaction_count".data) (AuditPipeline.fetch_etherscan_data
          contract_address api_key requestsAvailable net) = some (.n 0) ∧
      assocGet ("verification_status".data) (AuditPipeline.fetch_etherscan_data
          contract_address api_key requestsAvailable net)
        = some (.s ("unknown".data))) ∧
    (∀ addr, contract_address = some addr → addr ≠ [] →
      (api_key = none ∨ api_key = some []) →
      fetchNetworkCalls contract_address api_key requestsAvailable net = 0 ∧
      (assocGet ("note".data) (AuditPipeline.fetch_etherscan_data contract_address
          api_key requestsAvailable net)).isSome = true ∧
      assocGet ("transaction_count".data) (AuditPipeline.fetch_etherscan_data
          contract_address api_key requestsAvailable net) = some (.n 0) ∧
      assocGet ("verification_status".data) (AuditPipeline.fetch_etherscan_data
          contract_address api_key requestsAvailable net)
        = some (.s ("unknown".data)) ∧
      assocGet ("deployer_address".data) (AuditPipeline.fetch_etherscan_data
          contract_address api_key requestsAvailable net)
        = some (.s zeroAddress) ∧
      assocGet ("creation_date".data) (AuditPipeline.fetch_etherscan_data
          contract_address api_key requestsAvailable net)
        = some (.s ("Unknown".data))) := by
  constructor
  · intro h
    have hcalls : fetchNetworkCalls contract_address api_key requestsAvailable net = 0 := by
      unfold fetchNetworkCalls
      rw [if_pos h]
    have hfetch : AuditPipeline.fetch_etherscan_data contract_address api_key
        requestsAvailable net =
        [(("note".data), .s noAddressNote),
         (("verification_status".data), .s ("unknown".data)),
         (("transaction_count".data), .n 0)] := by
      unfold AuditPipeline.fetch_etherscan_data
      rw [if_pos h]
    rw [hfetch, hcalls]
    refine ⟨rfl, rfl, rfl, rfl⟩
  · intro addr ha hne hkey
    subst ha
    have hna : ¬((some addr : Option Str) = none ∨ (some addr : Option Str) = some []) := by
      simp [hne]
    have hcalls : fetchNetworkCalls (some addr) api_key requestsAvailable net = 0 := by
      unfold fetchNetworkCalls
      rw [if_neg hna, if_pos hkey]
    have hfetch : AuditPipeline.fetch_etherscan_data (some addr) api_key
        requestsAvailable net =
        [(("note".data), .s noKeyNote),
         (("contract_address".data), .s addr),
         (("verification_status".data), .s ("unknown".data)),
         (("transaction_count".data), .n 0),
         (("deployer_address".data), .s zeroAddress),
         (("creation_date".data), .s ("Unknown".data))] := by
      unfold AuditPipeline.fetch_etherscan_data
      rw [if_neg hna]
      dsimp only
      rw [if_pos hkey]
      simp only [Option.getD_some]
    rw [hfetch, hcalls]
    refine ⟨rfl, rfl, rfl, rfl, rfl, rfl⟩

/-- Witness for C6 exercising both placeholder branches concretely. -/
theorem c6_placeholder_paths_witness :
    fetchNetworkCalls none none true (.ok ⟨none, none⟩ ⟨none, none⟩) = 0 ∧
    fetchNetworkCalls (some ("0xabc".data)) none true
        (.ok ⟨none, none⟩ ⟨none, none⟩) = 0 ∧
    assocGet ("deployer_address".data) (AuditPipeline.fetch_etherscan_data
        (some ("0xabc".data)) none true (.ok ⟨none, none⟩ ⟨none, none⟩))
      = some (.s zeroAddress) := by
  refine ⟨((c6_placeholder_paths none none true
      (.ok ⟨none, none⟩ ⟨none, none⟩)).1 (Or.inl rfl)).1, ?_, ?_⟩
  · exact ((c6_placeholder_paths (some ("0xabc".data)) none true
      (.ok ⟨none, none⟩ ⟨none, none⟩)).2 ("0xabc".data) rfl (by decide)
      (Or.inl rfl)).1
  · exact ((c6_placeholder_paths (some ("0xabc".data)) none true
      (.ok ⟨none, none⟩ ⟨none, none⟩)).2 ("0xabc".data) rfl (by decide)
      (Or.inl rfl)).2.2.2.2.1

/-- C9: On a successful dual-call fetch (no exception, txlist response with
status "1"): transaction_count is the length of the full transaction list;
when no transaction has an empty destination (to) field both
deployer_address and creation_date are "Unknown"; when some transaction has
an empty destination field, the first such transaction (in the order
returned) supplies deployer_address from its source (from) field and
creation_date as the (abstracted) ISO-8601 conversion of its timestamp. -/
theorem c9_creation_transaction_scan (addr key : Str) (txd : TxData)
    (srcd : SourceData) (txs : List Tx) (haddr : addr ≠ []) (hkey : key ≠ [])
    (hst : txd.status = some ("1".data)) (hres : txd.result = some txs) :
    assocGet ("transaction_count".data)
        (AuditPipeline.fetch_etherscan_data (some addr) (some key) true
          (.ok txd srcd)) = some (.n txs.length) ∧
    (findCreation txs = none →
      assocGet ("deployer_address".data)
          (AuditPipeline.fetch_etherscan_data (some addr) (some key) true
            (.ok txd srcd)) = some (.s ("Unknown".data)) ∧
      assocGet ("creation_date".data)
          (AuditPipeline.fetch_etherscan_data (some addr) (some key) true
            (.ok txd srcd)) = some (.s ("Unknown".data))) ∧
    (∀ t f ts, findCreation txs = some t → t.fromAddr = some f →
      t.timeStamp = some ts →
      assocGet ("deployer_address".data)
          (AuditPipeline.fetch_etherscan_data (some addr) (some key) true
            (.ok txd srcd)) = some (.s f) ∧
      assocGet ("creation_date".data)
          (AuditPipeline.fetch_etherscan_data (some addr) (some key) true
            (.ok txd srcd)) = some (.s (isoOfTimestamp ts))) := by
  have hna : ¬((some addr : Option Str) = none ∨ (some addr : Option Str) = some []) := by
    simp [haddr]
  have hnk : ¬((some key : Option Str) = none ∨ (some key : Option Str) = some []) := by
    simp [hkey]
  have hfetch : AuditPipeline.fetch_etherscan_data (some addr) (some key) true
      (.ok txd srcd) =
      [(("contract_address".data), .s addr),
       (("verification_status".data), .s (verificationStatus srcd)),
       (("transaction_count".data), .n (txSummary txd).1),
       (("deployer_address".data), .s (txSummary txd).2.1),
       (("creation_date".data), .s (txSummary txd).2.2),
       (("api_endpoint".data), .s (replaceAll key maskStr (txUrl addr key)))] := by
    unfold AuditPipeline.fetch_etherscan_data
    rw [if_neg hna]
    dsimp only
    rw [if_neg hnk]
    rfl
  rw [hfetch]
  obtain ⟨tst, tres⟩ := txd
  dsimp only at hst hres
  subst hst
  subst hres
  cases txs with
  | nil =>
    have hts : txSummary ⟨some ("1".data), some ([] : List Tx)⟩
        = (0, ("Unknown".data), ("Unknown".data)) := rfl
    rw [hts]
    refine ⟨rfl, fun _ => ⟨rfl, rfl⟩, fun t f ts hfc _ _ => ?_⟩
    exact absurd hfc (by simp [findCreation])
  | cons t0 rest =>
    have hcond : ("1".data) = ("1".data) ∧ (t0 :: rest : List Tx) ≠ [] :=
      ⟨rfl, by simp⟩
    cases hfc : findCreation (t0 :: rest) with
    | none =>
      have hts : txSummary ⟨some ("1".data), some (t0 :: rest)⟩
          = ((t0 :: rest).length, ("Unknown".data), ("Unknown".data)) := by
        unfold txSummary
        dsimp only
        rw [if_pos hcond, hfc]
      rw [hts]
      refine ⟨rfl, fun _ => ⟨rfl, rfl⟩, fun t f ts hfc' _ _ => ?_⟩
      exact absurd hfc' (by simp)
    | some t =>
      have hts : txSummary ⟨some ("1".data), some (t0 :: rest)⟩
          = ((t0 :: rest).length, t.fromAddr.getD ("Unknown".data),
             isoOfTimestamp (t.timeStamp.getD 0)) := by
        unfold txSummary
        dsimp only
        rw [if_pos hcond, hfc]
      rw [hts]
      refine ⟨rfl, fun hnone => ?_, fun t' f ts hfc' hf hts' => ?_⟩
      · exact absurd hnone (by simp)
      · have ht' : t' = t := (Option.some.inj hfc').symm
        subst ht'
        rw [hf, hts']
        exact ⟨rfl, rfl⟩

/-- Witness for C9 at a concrete transaction list containing a
contract-creation transaction. -/
theorem c9_creation_transaction_scan_witness :
    assocGet ("transaction_count".data)
        (AuditPipeline.fetch_etherscan_data (some ("0xc".data)) (some ("K".data))
          true (.ok ⟨some ("1".data),
            some [⟨some ("0xa".data), some ("0xb".data), some 3⟩,
                  ⟨some [], some ("0xdeployer".data), some 99⟩]⟩
            ⟨none, none⟩)) = some (.n 2) ∧
    assocGet ("deployer_address".data)
        (AuditPipeline.fetch_etherscan_data (some ("0xc".data)) (some ("K".data))
          true (.ok ⟨some ("1".data),
            some [⟨some ("0xa".data), some ("0xb".data), some 3⟩,
                  ⟨some [], some ("0xdeployer".data), some 99⟩]⟩
            ⟨none, none⟩)) = some (.s ("0xdeployer".data)) := by
  have h := c9_creation_transaction_scan ("0xc".data) ("K".data)
    ⟨some ("1".data),
     some [⟨some ("0xa".data), some ("0xb".data), some 3⟩,
           ⟨some [], some ("0xdeployer".data), some 99⟩]⟩
    ⟨none, none⟩
    [⟨some ("0xa".data), some ("0xb".data), some 3⟩,
     ⟨some [], some ("0xdeployer".data), some 99⟩]
    (by decide) (by decide) rfl rfl
  refine ⟨h.1, ?_⟩
  exact (h.2.2 ⟨some [], some ("0xdeployer".data), some 99⟩ ("0xdeployer".data) 99
    (by decide) rfl rfl).1

/-- C2 counterexample: with an address and a configured credential, on the
network-failure path the returned structure carries the exception message
verbatim — and a requests-layer exception message contains the request URL,
credential included, so the credential appears verbatim in the returned
structure. -/
theorem c2_counterexample :
    dictLeaks ("SECRET".data)
      (AuditPipeline.fetch_etherscan_data (some ("0xd".data)) (some ("SECRET".data))
        true (.reqExn false ("url apikey=SECRET err".data))) = true := by decide

/-- C2 amended: with an address and a configured (non-empty) credential, the
credential never appears verbatim in the returned structure provided it
contains no mask character and does not occur verbatim in the other strings
the structure carries (the address, the response-derived strings, and — on
the failure paths — the composed exception message); in particular, on the
success path every occurrence of the credential in the echoed request URL is
masked before inclusion, unconditionally. -/
theorem c2_credential_not_leaked (addr key : Str) (requestsAvailable : Bool)
    (net : NetOutcome) (haddr : addr ≠ []) (hkey : key ≠ [])
    (hstar : ('*' : Char) ∉ key)
    (hsources : ∀ t ∈ leakSources addr net, occurs key t = false) :
    dictLeaks key (AuditPipeline.fetch_etherscan_data (some addr) (some key)
      requestsAvailable net) = false := by
  have hna : ¬((some addr : Option Str) = none ∨ (some addr : Option Str) = some []) := by
    simp [haddr]
  have hnk : ¬((some key : Option Str) = none ∨ (some key : Option Str) = some []) := by
    simp [hkey]
  have haddr' : occurs key addr = false :=
    hsources addr (by simp [leakSources])
  unfold AuditPipeline.fetch_etherscan_data
  rw [if_neg hna]
  dsimp only
  rw [if_neg hnk]
  simp only [Option.getD_some]
  cases requestsAvailable with
  | false =>
    have h1 : occurs key ("requests library not available".data) = false :=
      hsources _ (by simp [leakSources])
    have h2 : occurs key ("Install requests: pip install requests".data) = false :=
      hsources _ (by simp [leakSources])
    show (occurs key ("requests library not available".data)
        || (occurs key ("Install requests: pip install requests".data) || false)) = false
    rw [h1, h2]
    rfl
  | true =>
    cases net with
    | reqExn duringSecond msg =>
      have h1 : occurs key (("Failed to fetch data: ".data) ++ msg) = false :=
        hsources _ (by simp [leakSources])
      show (occurs key (("Failed to fetch data: ".data) ++ msg)
          || (occurs key addr || false)) = false
      rw [h1, haddr']
      rfl
    | otherExn duringSecond msg =>
      have h1 : occurs key (("Unexpected error: ".data) ++ msg) = false :=
        hsources _ (by simp [leakSources])
      show (occurs key (("Unexpected error: ".data) ++ msg)
          || (occurs key addr || false)) = false
      rw [h1, haddr']
      rfl
    | ok txd srcd =>
      have h1 : occurs key (txSummary txd).2.1 = false :=
        hsources _ (by simp [leakSources])
      have h2 : occurs key (txSummary txd).2.2 = false :=
        hsources _ (by simp [leakSources])
      have h3 : occurs key (verificationStatus srcd) = false :=
        hsources _ (by simp [leakSources])
      have hdisj : ∀ c ∈ maskStr, c ∉ key := by
        intro c hc
        have hm : maskStr = [('*' : Char), '*', '*'] := rfl
        rw [hm] at hc
        simp only [List.mem_cons, List.not_mem_nil, or_false] at hc
        rcases hc with h | h | h <;> (rw [h]; exact hstar)
      have hmask : occurs key (replaceAll key maskStr (txUrl addr key)) = false :=
        occurs_replaceAll key maskStr hkey (by decide) hdisj
          (txUrl addr key).length (txUrl addr key) le_rfl
      show (occurs key addr
          || (occurs key (verificationStatus srcd)
          || (false
          || (occurs key (txSummary txd).2.1
          || (occurs key (txSummary txd).2.2
          || (occurs key (replaceAll key maskStr (txUrl addr key)) || false)))))) = false
      rw [haddr', h3, h1, h2, hmask]
      rfl

/-- Witness for the amended C2 at a concrete successful dual-call fetch. -/
theorem c2_credential_not_leaked_witness :
    dictLeaks ("KZ".data)
      (AuditPipeline.fetch_etherscan_data (some ("0xA".data)) (some ("KZ".data))
        true (.ok ⟨some ("1".data), some [⟨some [], some ("0xb".data), some 5⟩]⟩
                  ⟨some ("1".data), some [⟨some ("src".data)⟩]⟩)) = false :=
  c2_credential_not_leaked ("0xA".data) ("KZ".data) true
    (.ok ⟨some ("1".data), some [⟨some [], some ("0xb".data), some 5⟩]⟩
         ⟨some ("1".data), some [⟨some ("src".data)⟩]⟩)
    (by decide) (by decide) (by decide) (by decide)
